import Mathlib

/-!
Verification of the lcdblib text-report parsing subsystem.

Each Python parser from `lcdblib/parse/` is shallowly embedded as a Lean
function over the lines of its input file.  Lines are modelled exactly as
Python file iteration yields them: each element of the line list carries its
trailing newline character (except possibly the last).  Python exceptions are
modelled with an explicit error type and `Except`; the `None` return used as
the "no data" sentinel is modelled with `Option`.  Python regular-expression
searches are embedded as deterministic functions that reproduce the
backtracking behaviour of the concrete patterns used by the source on
newline-terminated lines.  Numeric cell values are modelled with `Int` for
Python `int` and `ℚ` for Python `float`; pandas element-wise division by zero
(which yields `inf`/`nan`, not an exception) is given dedicated constructors.
-/

namespace Lcdblib

/-- Python exception outcomes observable from the parsers.  The constructors
`lengthMismatch` (pandas column-assignment length check), `noObjectsToConcat`
(`pd.concat` on an empty collection) and `valueError` (failed `int`/`float`
conversion or tuple unpacking) are all `ValueError` in Python; they are kept
distinct here so theorems can name the precise failure.  `raggedTable` marks
inputs outside the modelled fragment of `pandas.read_csv` (tables whose rows
do not all have the same field count); no theorem below exercises it. -/
inductive PyErr where
  | unboundLocalError
  | stopIteration
  | keyError (k : String)
  | valueError
  | lengthMismatch
  | noObjectsToConcat
  | attributeError
  | typeError
  | indexError
  | emptyDataError
  | raggedTable
deriving DecidableEq, Repr

/-- A scalar cell value: Python `int`, Python `float` (as an exact rational),
or the IEEE specials that pandas produces on division by zero. -/
inductive AVal where
  | int (n : Int)
  | float (q : ℚ)
  | infV
  | negInfV
  | nanV
deriving DecidableEq, Repr

instance {e a : Type} [DecidableEq e] [DecidableEq a] : DecidableEq (Except e a) := by
  intro x y
  cases x <;> cases y
  case error.error u v =>
    exact if h : u = v then .isTrue (by rw [h]) else .isFalse (by intro hc; cases hc; exact h rfl)
  case ok.ok u v =>
    exact if h : u = v then .isTrue (by rw [h]) else .isFalse (by intro hc; cases hc; exact h rfl)
  case error.ok u v => exact .isFalse (by intro hc; cases hc)
  case ok.error u v => exact .isFalse (by intro hc; cases hc)

/-- Characters matched by the regex class `\s` (Python `re`, ASCII). -/
def isPySpace (c : Char) : Bool :=
  c = ' ' || c = '\t' || c = '\n' || c = '\r' || c = '\x0b' || c = '\x0c'

/-- Characters matched by the regex class `\w` (ASCII fragment). -/
def isWordChar (c : Char) : Bool :=
  c.isAlphanum || c = '_'

/-- Value of a list of decimal digit characters. -/
def digitsToNat (ds : List Char) : Nat :=
  ds.foldl (fun a c => a * 10 + (c.toNat - 48)) 0

/-- Split a file's contents the way Python file iteration does: every line
keeps its trailing newline; a final fragment without a newline is kept too. -/
def pyLinesAux (acc : List Char) : List Char → List String
  | [] => if acc.isEmpty then [] else [String.mk acc.reverse]
  | c :: rest =>
    if c = '\n' then String.mk (acc.reverse ++ ['\n']) :: pyLinesAux [] rest
    else pyLinesAux (c :: acc) rest

/-- Lines of a file in Python's iteration convention. -/
def pyLines (s : String) : List String :=
  pyLinesAux [] s.toList

/-- Drop one trailing newline, mirroring how the `$` anchor matches just
before a final newline. -/
def stripNl (l : String) : String :=
  if l.toList.getLast? = some '\n' then String.mk l.toList.dropLast else l

/-- Python `str.replace(',', '')`. -/
def stripCommas (l : String) : String :=
  String.mk (l.toList.filter (fun c => c ≠ ','))

/-- Python `str.rstrip()`: remove trailing whitespace. -/
def rstripAll (l : String) : String :=
  String.mk ((l.toList.reverse.dropWhile isPySpace).reverse)

/-- Split a character list on a separator character, Python `str.split(sep)`
semantics (`"".split(sep) = [""]`, empty pieces kept). -/
def splitOnChar (sep : Char) : List Char → List (List Char)
  | [] => [[]]
  | c :: rest =>
    if c = sep then [] :: splitOnChar sep rest
    else
      match splitOnChar sep rest with
      | h :: t => (c :: h) :: t
      | [] => [[c]]

/-- String-level split on a separator character. -/
def splitOnCharS (sep : Char) (s : String) : List String :=
  (splitOnChar sep s.toList).map String.mk

/-- Whitespace tokenisation, Python `str.split()` semantics: maximal runs of
non-whitespace characters, empty tokens dropped. -/
def splitWsAux (cur : List Char) : List Char → List (List Char)
  | [] => if cur.isEmpty then [] else [cur.reverse]
  | c :: rest =>
    if isPySpace c then
      if cur.isEmpty then splitWsAux [] rest else cur.reverse :: splitWsAux [] rest
    else splitWsAux (c :: cur) rest

/-- Whitespace-delimited tokens of a character list. -/
def splitWs (cs : List Char) : List (List Char) :=
  splitWsAux [] cs

/-- Whitespace-delimited tokens of a string, Python `str.split()`. -/
def pySplitWsTokens (s : String) : List String :=
  (splitWs s.toList).map String.mk

/-- Does `pat` occur as a prefix of `s`? -/
def startsWithL : List Char → List Char → Bool
  | [], _ => true
  | _ :: _, [] => false
  | p :: ps, c :: cs => p = c && startsWithL ps cs

/-- Python `str.startswith` on kernel-reducible character lists. -/
def pyStarts (pat l : String) : Bool :=
  startsWithL pat.toList l.toList

/-- Does `pat` occur as a contiguous sublist of `s`?  Python `pat in s`. -/
def hasSub (pat : List Char) : List Char → Bool
  | [] => startsWithL pat []
  | c :: cs => startsWithL pat (c :: cs) || hasSub pat cs

/-- Ordered-dictionary update used by every accumulator in the source:
an existing key keeps its position and gets the new value, a fresh key is
appended at the end. -/
def odUpd {k v : Type} [DecidableEq k] : List (k × v) → k → v → List (k × v)
  | [], key, val => [(key, val)]
  | (a, b) :: rest, key, val =>
    if a = key then (a, val) :: rest else (a, b) :: odUpd rest key val

/-- Ordered-dictionary lookup. -/
def odLookup {k v : Type} [DecidableEq k] : List (k × v) → k → Option v
  | [], _ => none
  | (a, b) :: rest, key => if a = key then some b else odLookup rest key

/-- Python `int(str)` on a character list: optional surrounding whitespace,
optional sign, then one or more decimal digits; anything else raises
`ValueError` (modelled as `none`).  Digit-group separators (underscores) are
not modelled; no input below contains them. -/
def pyIntL? (cs : List Char) : Option Int :=
  let t₁ := cs.dropWhile isPySpace
  let t₂ := (t₁.reverse.dropWhile isPySpace).reverse
  match t₂ with
  | [] => none
  | c :: ds =>
    if c = '-' then
      if ds.isEmpty then none
      else if ds.all Char.isDigit then some (-(digitsToNat ds : Int)) else none
    else if c = '+' then
      if ds.isEmpty then none
      else if ds.all Char.isDigit then some (digitsToNat ds : Int) else none
    else if (c :: ds).all Char.isDigit then some (digitsToNat (c :: ds) : Int) else none

/-- Python `float(str)` restricted to the strings the `[\d\.]+` regex groups
can produce: digits with at most one dot and at least one digit succeed
(`"1."`, `".5"`, `"7"`); a lone dot or several dots raise `ValueError`. -/
def pyFloatRat? (cs : List Char) : Option ℚ :=
  if cs.all (fun c => c.isDigit || c = '.') then
    match splitOnChar '.' cs with
    | [ds] => if ds.isEmpty then none else some (digitsToNat ds : ℚ)
    | [as, bs] =>
      if as.isEmpty && bs.isEmpty then none
      else some ((digitsToNat as : ℚ) + (digitsToNat bs : ℚ) / (10 ^ bs.length))
    | _ => none
  else none

/-- Engine for the lazy-group patterns `(.+?):suffix` and friends: scan for
the leftmost colon whose accumulated group satisfies `ok` and whose remaining
characters satisfy `sfx`; a rejected colon becomes part of the group, exactly
as the backtracking regex engine extends the lazy group over it. -/
def lazyColon {β : Type} (ok : List Char → Bool) (sfx : List Char → Option β) :
    List Char → List Char → Option (List Char × β)
  | _, [] => none
  | acc, c :: rest =>
    if c = ':' then
      let g := acc.reverse
      match if ok g then sfx rest else none with
      | some b => some (g, b)
      | none => lazyColon ok sfx (c :: acc) rest
    else lazyColon ok sfx (c :: acc) rest

/-- Suffix `\s+(\d+).*$` of the bamtools pattern: at least one whitespace
character, then a maximal digit run (the group), anything afterwards. -/
def sfxIntNoTrail (cs : List Char) : Option Nat :=
  if (cs.takeWhile isPySpace).isEmpty then none
  else
    let r := cs.dropWhile isPySpace
    let ds := r.takeWhile Char.isDigit
    if ds.isEmpty then none else some (digitsToNat ds)

/-- Suffix `\s+([\d\.]+)\s.*$` shared by the samtools and atropos patterns:
at least one whitespace character, a maximal `[\d.]` run (the group), and one
more whitespace character right after the run (usually the line's newline). -/
def sfxNumTrail (cs : List Char) : Option (List Char) :=
  if (cs.takeWhile isPySpace).isEmpty then none
  else
    let r := cs.dropWhile isPySpace
    let run := r.takeWhile (fun c => c.isDigit || c = '.')
    if run.isEmpty then none
    else
      match (r.drop run.length).head? with
      | some c => if isPySpace c then some run else none
      | none => none

/-- Try `f j` for `j = n, n-1, …, 1`, returning the first success: the order
in which a backtracking engine shrinks a greedy leading `\s+` run. -/
def downFrom {α : Type} (f : Nat → Option α) : Nat → Option α
  | 0 => none
  | j + 1 =>
    match f (j + 1) with
    | some r => some r
    | none => downFrom f j

/-- A pattern of the form `\s+(lazy group):suffix`: the greedy leading
whitespace run is shrunk until the lazy colon search succeeds. -/
def wsThenLazyColon {β : Type} (ok : List Char → Bool) (sfx : List Char → Option β)
    (cs : List Char) : Option (List Char × β) :=
  downFrom (fun j => lazyColon ok sfx [] (cs.drop j)) (cs.takeWhile isPySpace).length

/-- pandas element-wise division of two integer columns times 100, as used by
the derived percentage columns: a zero denominator yields `inf`/`-inf`/`nan`
(pandas does not raise), otherwise an exact float. -/
def pctOf (a b : Int) : AVal :=
  if b = 0 then (if a = 0 then .nanV else if a > 0 then .infV else .negInfV)
  else .float ((a : ℚ) / (b : ℚ) * 100)

/-- A single-row DataFrame: the row index (the sample identifier) and the
ordered column-name/value pairs. -/
structure Df1 where
  idx : String
  cols : List (String × AVal)
deriving DecidableEq, Repr

/-! ### lcdblib.parse.bamtools — `parse_bamtools_stats` -/

/-- `re.search(r"^(.+?):\s+(\d+).*$", l)` on one newline-terminated line:
lazy nonempty group (no newline) up to a colon, then whitespace and an
integer group. -/
def matchColonInt (l : String) : Option (String × Nat) :=
  (lazyColon (fun g => !g.isEmpty && !g.any (fun c => c = '\n')) sfxIntNoTrail [] l.toList).map
    (fun p => (String.mk p.1, p.2))

/-- The accumulation loop of `parse_bamtools_stats`: every matching line
stores `int(group2)` under `group1` in an ordered dict. -/
def bamtoolsScan (lines : List String) : List (String × Int) :=
  lines.foldl
    (fun m l =>
      match matchColonInt l with
      | some (k, n) => odUpd m k (n : Int)
      | none => m)
    []

/-- `df[k]` on the accumulated record: a missing column raises `KeyError`. -/
def dfGetInt (m : List (String × Int)) (k : String) : Except PyErr Int :=
  match odLookup m k with
  | some v => .ok v
  | none => .error (.keyError k)

/-- `parse_bamtools_stats(sample, file)`: scan `label: integer` lines, return
`None` when nothing matched, otherwise build the one-row record and append
the six derived percentage columns unconditionally, in source order; each
derived column looks up its numerator and then `Total reads`, and a missing
key raises `KeyError`. -/
def parse_bamtools_stats (sample content : String) : Except PyErr (Option Df1) :=
  let parsed := bamtoolsScan (pyLines content)
  if parsed.isEmpty then .ok none
  else do
    let base : List (String × AVal) := parsed.map (fun p => (p.1, .int p.2))
    let a₁ ← dfGetInt parsed "Mapped reads"
    let t₁ ← dfGetInt parsed "Total reads"
    let c₁ := odUpd base "Percent Mapped" (pctOf a₁ t₁)
    let a₂ ← dfGetInt parsed "Forward strand"
    let t₂ ← dfGetInt parsed "Total reads"
    let c₂ := odUpd c₁ "Percent Forward" (pctOf a₂ t₂)
    let a₃ ← dfGetInt parsed "Reverse strand"
    let t₃ ← dfGetInt parsed "Total reads"
    let c₃ := odUpd c₂ "Percent Reverse" (pctOf a₃ t₃)
    let a₄ ← dfGetInt parsed "Failed QC"
    let t₄ ← dfGetInt parsed "Total reads"
    let c₄ := odUpd c₃ "Percent Failed QC" (pctOf a₄ t₄)
    let a₅ ← dfGetInt parsed "Duplicates"
    let t₅ ← dfGetInt parsed "Total reads"
    let c₅ := odUpd c₄ "Percent Duplicates" (pctOf a₅ t₅)
    let a₆ ← dfGetInt parsed "Paired-end reads"
    let t₆ ← dfGetInt parsed "Total reads"
    let c₆ := odUpd c₅ "Percent Paired-end" (pctOf a₆ t₆)
    .ok (some ⟨sample, c₆⟩)

/-- Column lookup on a `parse_bamtools_stats` result; `none` when the parse
failed, returned `None`, or lacks the column. -/
def bamtoolsCol (k : String) : Except PyErr (Option Df1) → Option AVal
  | .ok (some df) => odLookup df.cols k
  | _ => none

/-! ### lcdblib.parse.samtools — `parse_samtools_stats` -/

/-- One line of `parse_samtools_stats`: lines must start with `SN`; then
`re.search(r"^SN\s+(.+?):\s+([\d\.]+)\s.*$", l)` applies, and the numeric
group is parsed as `float` when it contains a dot (raising `ValueError` on a
malformed literal) and as `int` otherwise. -/
def samtoolsLine (l : String) : Except PyErr (Option (String × AVal)) :=
  if pyStarts "SN" l then
    match wsThenLazyColon (fun g => !g.isEmpty && !g.any (fun c => c = '\n')) sfxNumTrail
        (l.toList.drop 2) with
    | none => .ok none
    | some (g, run) =>
      if run.any (fun c => c = '.') then
        match pyFloatRat? run with
        | some q => .ok (some (String.mk g, .float q))
        | none => .error .valueError
      else .ok (some (String.mk g, .int (digitsToNat run : Int)))
  else .ok none

/-- The accumulation loop of `parse_samtools_stats`. -/
def samtoolsScan : List (String × AVal) → List String → Except PyErr (List (String × AVal))
  | m, [] => .ok m
  | m, l :: rest => do
    let r ← samtoolsLine l
    match r with
    | some (k, v) => samtoolsScan (odUpd m k v) rest
    | none => samtoolsScan m rest

/-- `parse_samtools_stats(sample, file)` over pre-split lines. -/
def parse_samtools_statsLines (sample : String) (lines : List String) :
    Except PyErr (Option Df1) := do
  let parsed ← samtoolsScan [] lines
  if parsed.isEmpty then .ok none else .ok (some ⟨sample, parsed⟩)

/-- `parse_samtools_stats(sample, file)` on the file's contents. -/
def parse_samtools_stats (sample content : String) : Except PyErr (Option Df1) :=
  parse_samtools_statsLines sample (pyLines content)

/-! ### lcdblib.parse.picard — `parse_picardCollect_summary` -/

/-- A one-row string record produced by `pd.read_csv` on the two captured
lines: header name / data cell pairs, indexed by the sample. -/
structure PicardDf where
  idx : String
  cols : List (String × String)
deriving DecidableEq, Repr

/-- The scan loop of `parse_picardCollect_summary`: skip `#` comment lines;
at the first `PF_BASES` line bind `parsed` to that line plus the next one
(`next(fh)` raising `StopIteration` when there is no next line) and stop.
When the loop ends without ever binding `parsed`, the subsequent
`len(parsed)` raises `UnboundLocalError`. -/
def picardSummaryScan : List String → Except PyErr String
  | [] => .error .unboundLocalError
  | l :: rest =>
    if pyStarts "#" l then picardSummaryScan rest
    else if pyStarts "PF_BASES" l then
      match rest.head? with
      | some nxt => .ok (l ++ nxt)
      | none => .error .stopIteration
    else picardSummaryScan rest

/-- The tail of `parse_picardCollect_summary`: `None` for an empty capture
(dead in the source, since a bound capture starts with `PF_BASES`), otherwise
a two-line tab-separated header/data record indexed by the sample. -/
def picardFinish (sample parsed : String) : Except PyErr (Option PicardDf) :=
  if parsed.toList.isEmpty then .ok none
  else
    match (pyLines parsed).map (fun l => splitOnCharS '\t' (stripNl l)) with
    | [hs, ds] =>
      if hs.length = ds.length then .ok (some ⟨sample, hs.zip ds⟩)
      else .error .raggedTable
    | _ => .error .raggedTable

/-- `parse_picardCollect_summary(sample, file)`. -/
def parse_picardCollect_summary (sample content : String) : Except PyErr (Option PicardDf) :=
  picardSummaryScan (pyLines content) >>= picardFinish sample

/-! ### lcdblib.parse.dupradar — `parse_dupradar` -/

/-- A table indexed by the `(sample, FBgn)` composite key: the surviving
column names and, per row, the index pair and the remaining cells (kept as
raw strings; the claims under test concern column names and the index, so
pandas dtype inference is not modelled). -/
structure DupDf where
  cols : List String
  rows : List ((String × String) × List String)
deriving DecidableEq, Repr

/-- The fixed canonical column list assigned by `parse_dupradar`. -/
def dupradarCanonical : List String :=
  ["FBgn", "geneLength", "allCountsMulti", "filteredCountsMulti", "dupRateMulti",
   "dupsPerIdMulti", "RPKMulti", "RPKMMulti", "allCounts", "filteredCounts",
   "dupRate", "dupsPerId", "RPK", "RPKM", "mhRate"]

/-- `parse_dupradar(sample, file)` over rows already split on tabs.
`pd.read_csv(file, sep='\t', index_col=0)` consumes the first field of every
row as the read index (only uniform-width tables are modelled; `raggedTable`
marks anything else).  `df.columns = [...]` then requires exactly 15
remaining columns (a pandas `ValueError` otherwise), and
`set_index(['sample', 'FBgn'])` moves `FBgn` from the columns into the
composite row index, discarding the read index. -/
def parse_dupradarRows (sample : String) (rows : List (List String)) :
    Except PyErr DupDf :=
  match rows with
  | [] => .error .emptyDataError
  | header :: data =>
    if data.all (fun r => r.length = header.length) then
      if header.length - 1 = dupradarCanonical.length then
        let cells := data.map (fun r => r.drop 1)
        match dupradarCanonical.findIdx? (fun c => c = "FBgn") with
        | none => .error (.keyError "FBgn")
        | some i =>
          .ok ⟨dupradarCanonical.eraseIdx i,
               cells.map (fun r => ((sample, r.getD i ""), r.eraseIdx i))⟩
      else .error .lengthMismatch
    else .error .raggedTable

/-- `parse_dupradar(sample, file)` on the file's contents. -/
def parse_dupradar (sample content : String) : Except PyErr DupDf :=
  parse_dupradarRows sample
    (((pyLines content).filter (fun l => !(stripNl l).isEmpty)).map
      (fun l => splitOnCharS '\t' (stripNl l)))

/-! ### lcdblib.parse.fastq_screen — `parse_fqscreen` -/

/-- A one-row DataFrame whose column names are the 3-part composites
`(organism, category, count-or-percent)`. -/
structure FqDf where
  idx : String
  cols : List ((String × String × String) × AVal)
deriving DecidableEq, Repr

/-- The twelve fields of one organism line, when the line matches
`^(\S+)\s+(\d+)\s+(\d+)\s+([\d\.]+)\s+…\s+([\d\.]+)$`: no leading or
trailing whitespace, exactly twelve whitespace-delimited fields, the count
fields all digits and the percent fields drawn from `[\d.]`. -/
def fqscreenFields? (l : String) : Option (List String) :=
  let cs := (stripNl l).toList
  match cs.head?, cs.reverse.head? with
  | some c₀, some c₁ =>
    if isPySpace c₀ || isPySpace c₁ then none
    else
      match splitWs cs with
      | [f₁, f₂, f₃, f₄, f₅, f₆, f₇, f₈, f₉, f₁₀, f₁₁, f₁₂] =>
        let countTok := fun (t : List Char) => !t.isEmpty && t.all Char.isDigit
        let pctTok := fun (t : List Char) => !t.isEmpty && t.all (fun c => c.isDigit || c = '.')
        if countTok f₂ && countTok f₃ && pctTok f₄ && countTok f₅ && pctTok f₆ &&
            countTok f₇ && pctTok f₈ && countTok f₉ && pctTok f₁₀ &&
            countTok f₁₁ && pctTok f₁₂ then
          some ([f₁, f₂, f₃, f₄, f₅, f₆, f₇, f₈, f₉, f₁₀, f₁₁, f₁₂].map String.mk)
        else none
      | _ => none
  | _, _ => none

/-- Integer value of an all-digit field (the regex shape guarantees Python
`int()` cannot fail on these). -/
def intOfDigits (s : String) : Int :=
  (digitsToNat s.toList : Int)

/-- Float value of a percent field; a field such as `1.2.3` matches the
regex class but makes Python `float()` raise `ValueError`. -/
def floatOfField (s : String) : Except PyErr ℚ :=
  match pyFloatRat? s.toList with
  | some q => .ok q
  | none => .error .valueError

/-- Process one line of `parse_fqscreen`: a matching line inserts eleven
composite-keyed values for its organism, in source order.  The five `float`
conversions are checked up front here; in the source they are interleaved
with the dictionary stores, but a conversion failure propagates out of the
whole parse and discards the partially filled dictionary, so the first
failing conversion (in group order, as here) is the observable outcome. -/
def fqscreenLine (m : List ((String × String × String) × AVal)) (l : String) :
    Except PyErr (List ((String × String × String) × AVal)) :=
  match fqscreenFields? l with
  | some [o, c₁, c₂, p₁, c₃, p₂, c₄, p₃, c₅, p₄, c₆, p₅] =>
    match floatOfField p₁, floatOfField p₂, floatOfField p₃, floatOfField p₄,
        floatOfField p₅ with
    | .error e, _, _, _, _ => .error e
    | .ok _, .error e, _, _, _ => .error e
    | .ok _, .ok _, .error e, _, _ => .error e
    | .ok _, .ok _, .ok _, .error e, _ => .error e
    | .ok _, .ok _, .ok _, .ok _, .error e => .error e
    | .ok q₁, .ok q₂, .ok q₃, .ok q₄, .ok q₅ =>
    let m := odUpd m (o, "reads_processed", "count") (.int (intOfDigits c₁))
    let m := odUpd m (o, "unmapped", "count") (.int (intOfDigits c₂))
    let m := odUpd m (o, "unmapped", "percent") (.float q₁)
    let m := odUpd m (o, "one_hit_one_library", "count") (.int (intOfDigits c₃))
    let m := odUpd m (o, "one_hit_one_library", "percent") (.float q₂)
    let m := odUpd m (o, "multiple_hits_one_library", "count") (.int (intOfDigits c₄))
    let m := odUpd m (o, "multiple_hits_one_library", "percent") (.float q₃)
    let m := odUpd m (o, "one_hit_multiple_libraries", "count") (.int (intOfDigits c₅))
    let m := odUpd m (o, "one_hit_multiple_libraries", "percent") (.float q₄)
    let m := odUpd m (o, "multiple_hits_multiple_libraries", "count") (.int (intOfDigits c₆))
    let m := odUpd m (o, "multiple_hits_multiple_libraries", "percent") (.float q₅)
    .ok m
  | _ => .ok m

/-- The accumulation loop of `parse_fqscreen`. -/
def fqscreenScan (m : List ((String × String × String) × AVal)) :
    List String → Except PyErr (List ((String × String × String) × AVal))
  | [] => .ok m
  | l :: rest =>
    match fqscreenLine m l with
    | .error e => .error e
    | .ok m' => fqscreenScan m' rest

/-- `parse_fqscreen(sample, file)` over pre-split lines. -/
def parse_fqscreenLines (sample : String) (lines : List String) :
    Except PyErr (Option FqDf) :=
  match fqscreenScan [] lines with
  | .error e => .error e
  | .ok parsed =>
    if parsed.isEmpty then .ok none else .ok (some ⟨sample, parsed⟩)

/-- `parse_fqscreen(sample, file)` on the file's contents. -/
def parse_fqscreen (sample content : String) : Except PyErr (Option FqDf) :=
  parse_fqscreenLines sample (pyLines content)

/-! ### lcdblib.parse.atropos — `parse_atropos` -/

/-- Rows of the concatenated length-distribution tables: each row carries its
`(sample, adapter-section, length)` composite index and its remaining
column/cell pairs. -/
def LenRows : Type :=
  List ((String × Option String × String) × List (String × String))

instance : DecidableEq LenRows := by
  unfold LenRows
  infer_instance

instance : Append LenRows := ⟨fun a b => List.append a b⟩

/-- `re.search(r"^=== (.+) ===$", l)`: the section-name group between the
delimiters, `None` when the line does not match (in which case the source's
`.group(1)` on `None` raises `AttributeError`). -/
def secName (l : String) : Option String :=
  let cs := (stripNl l).toList
  if cs.length ≥ 9 && startsWithL "=== ".toList cs &&
      startsWithL " ===".toList (cs.drop (cs.length - 4)) then
    some (String.mk ((cs.drop 4).take (cs.length - 8)))
  else none

/-- Group-1 shape of `^(\w+[\s\w\(\)-]+?):…`: at least two characters, a word
character first, every character drawn from `[\s\w()-]`. -/
def okFqs (g : List Char) : Bool :=
  match g with
  | [] => false
  | c :: rest =>
    isWordChar c && !rest.isEmpty &&
      (c :: rest).all (fun x => isWordChar x || isPySpace x || x = '(' || x = ')' || x = '-')

/-- The Summary-section pattern `^(\w+[\s\w\(\)-]+?):\s+([\d\.]+)\s.*$`; the
captured number goes through `int()`, so a dotted capture raises
`ValueError`. -/
def fqsMatch (l : String) : Except PyErr (Option (String × Int)) :=
  match lazyColon okFqs sfxNumTrail [] l.toList with
  | none => .ok none
  | some (g, run) =>
    if run.all Char.isDigit then .ok (some (String.mk g, (digitsToNat run : Int)))
    else .error .valueError

/-- The indented sub-key pattern `^\s+([\w\s-]+?):\s+([\d\.]+)\s.*$`. -/
def fqs2Match (l : String) : Option (String × List Char) :=
  (wsThenLazyColon
      (fun g => !g.isEmpty && g.all (fun x => isWordChar x || isPySpace x || x = '-'))
      sfxNumTrail l.toList).map (fun p => (String.mk p.1, p.2))

/-- Suffix `\s+(\d+)\s.*$` of the `Trimmed:` pattern. -/
def sfxIntTrail (cs : List Char) : Option Nat :=
  if (cs.takeWhile isPySpace).isEmpty then none
  else
    let r := cs.dropWhile isPySpace
    let ds := r.takeWhile Char.isDigit
    if ds.isEmpty then none
    else
      match (r.drop ds.length).head? with
      | some c => if isPySpace c then some (digitsToNat ds) else none
      | none => none

/-- `re.search(r"^.*Trimmed:\s+(\d+)\s.*$", l)`: the greedy leading `.*`
makes the engine take the rightmost `Trimmed:` occurrence with a valid
suffix. -/
def trimmedNum : List Char → Option Nat
  | [] => none
  | c :: rest =>
    match trimmedNum rest with
    | some n => some n
    | none =>
      if startsWithL "Trimmed:".toList (c :: rest) then sfxIntTrail ((c :: rest).drop 8)
      else none

/-- `'Number {} trimmed'.format(block)`: Python renders a `None` section as
the string `None`. -/
def fmtBlock : Option String → String
  | none => "None"
  | some s => s

/-- Collect the length-distribution table body: lines up to (and consuming)
the first blank line, or everything when the file ends first — the source
catches the `StopIteration` of its inner `next(fh)` loop. -/
def collectTable : List String → List String × List String
  | [] => ([], [])
  | l :: rest =>
    if pyStarts "\n" l then ([], rest)
    else
      let p := collectTable rest
      (l :: p.1, p.2)

/-- `pd.read_table` on the collected lines followed by
`set_index(['sample', 'adapter', 'length'])`: tab-split rows under the first
line's header (uniform widths only, as for the other tables), the `length`
column moved into the composite index together with the sample and the
adapter-section name. -/
def buildLenTable (sample : String) (block : Option String) (lines : List String) :
    Except PyErr LenRows :=
  match lines.map (fun l => splitOnCharS '\t' (stripNl l)) with
  | [] => .error .emptyDataError
  | header :: data =>
    if data.all (fun r => r.length = header.length) then
      match header.findIdx? (fun c => c = "length") with
      | none => .error (.keyError "length")
      | some i =>
        .ok (data.map (fun r =>
          ((sample, block, r.getD i ""), (header.eraseIdx i).zip (r.eraseIdx i))))
    else .error .raggedTable

/-- Loop state of `parse_atropos`: the current section, the last top-level
Summary key, the accumulated scalar dict and the per-section length
tables. -/
structure AState where
  block : Option String
  subBlock : Option String
  parsed : List (String × Int)
  cnts : List (Option String × LenRows)
deriving DecidableEq

/-- The line loop of `parse_atropos`: commas are stripped first; `===` lines
update the section; inside `Summary` the two key/value patterns apply (an
indented match with no preceding top-level key joins `None`, a
`TypeError`); elsewhere `Trimmed:` lines add a count and `length…` lines
swallow the following table.  The `fuel` argument makes the recursion
structural: every step consumes at least one line, so fuel equal to the
number of remaining lines (as supplied by `scanAtropos`) is never
exhausted. -/
def scanA (sample : String) : Nat → AState → List String → Except PyErr AState
  | _, st, [] => .ok st
  | 0, st, _ :: _ => .ok st
  | fuel + 1, st, l₀ :: rest =>
    let l := stripCommas l₀
    if pyStarts "===" l then
      match secName l with
      | none => .error .attributeError
      | some b => scanA sample fuel { st with block := some b } rest
    else if st.block = some "Summary" then
      match fqsMatch l with
      | .error e => .error e
      | .ok (some (k, v)) =>
        scanA sample fuel { st with subBlock := some k, parsed := odUpd st.parsed k v } rest
      | .ok none =>
        match fqs2Match l with
        | some (k₂, run) =>
          match st.subBlock with
          | none => .error .typeError
          | some sb =>
            if run.all Char.isDigit then
              scanA sample fuel
                { st with parsed := odUpd st.parsed (sb ++ "_" ++ k₂) (digitsToNat run : Int) }
                rest
            else .error .valueError
        | none => scanA sample fuel st rest
    else
      match trimmedNum l.toList with
      | some n =>
        scanA sample fuel
          { st with parsed := odUpd st.parsed ("Number " ++ fmtBlock st.block ++ " trimmed") (n : Int) }
          rest
      | none =>
        if pyStarts "length" l then
          let p := collectTable rest
          match buildLenTable sample st.block (l :: p.1) with
          | .error e => .error e
          | .ok t => scanA sample fuel { st with cnts := odUpd st.cnts st.block t } p.2
        else scanA sample fuel st rest

/-- The scan of `parse_atropos` over a whole file: the line count bounds the
loop's recursion depth, so it serves as the structural fuel. -/
def scanAtropos (sample : String) (lines : List String) : Except PyErr AState :=
  scanA sample lines.length ⟨none, none, [], []⟩ lines

/-- The tail of `parse_atropos` after the scan: `None` when the accumulated
dict is empty; otherwise the presence of a `Read 1` column name selects the
paired-end derived columns, its absence the single-end one, each derived
column dividing by a looked-up key (`KeyError` when absent); finally
`pd.concat` over the collected length tables raises when there are none. -/
def atroposFinish (sample : String) (st : AState) :
    Except PyErr (Option (Df1 × LenRows)) :=
  if st.parsed.isEmpty then .ok none
  else do
    let base : List (String × AVal) := st.parsed.map (fun p => (p.1, .int p.2))
    let withPct ←
      if st.parsed.any (fun p => hasSub "Read 1".toList p.1.toList) then do
        let a ← dfGetInt st.parsed "Total read pairs processed_Read 1 with adapter"
        let t ← dfGetInt st.parsed "Total read pairs processed"
        let c₁ := odUpd base "pct_read1_adapters" (pctOf a t)
        let b ← dfGetInt st.parsed "Total read pairs processed_Read 2 with adapter"
        let t₂ ← dfGetInt st.parsed "Total read pairs processed"
        pure (odUpd c₁ "pct_read2_adapters" (pctOf b t₂))
      else do
        let a ← dfGetInt st.parsed "Reads with adapters"
        let t ← dfGetInt st.parsed "Total reads processed"
        pure (odUpd base "pct_read1_adapters" (pctOf a t))
    if st.cnts.isEmpty then .error .noObjectsToConcat
    else .ok (some (⟨sample, withPct⟩, (st.cnts.map (fun p => p.2)).flatten))

/-- `parse_atropos(sample, file)` over pre-split lines. -/
def parse_atroposLines (sample : String) (lines : List String) :
    Except PyErr (Option (Df1 × LenRows)) :=
  match scanAtropos sample lines with
  | .error e => .error e
  | .ok st => atroposFinish sample st

/-- `parse_atropos(sample, file)` on the file's contents. -/
def parse_atropos (sample content : String) : Except PyErr (Option (Df1 × LenRows)) :=
  parse_atroposLines sample (pyLines content)

/-- Column lookup on the summary record of a `parse_atropos` result. -/
def atroposCol (k : String) : Except PyErr (Option (Df1 × LenRows)) → Option AVal
  | .ok (some (df, _)) => odLookup df.cols k
  | _ => none

/-! ### lcdblib.parse.fastqc — `FastQC._parser`, `FastQCBlock`, `split_ranges` -/

/-- One parsed report section: its status flag and its embedded sub-table
(column names and index-value/cells rows, from `pd.read_csv(..., sep='\t',
index_col=0)` on the block body). -/
structure FQBlock where
  status : String
  cols : List String
  rows : List (String × List String)
deriving DecidableEq, Repr

/-- Read a block body as a tab-separated table with the first column as
index, uniform widths only (as for the other modelled tables). -/
def fqBlockTable (lines : List String) : Except PyErr (List String × List (String × List String)) :=
  match lines.map (splitOnCharS '\t') with
  | [] => .error .emptyDataError
  | header :: data =>
    if data.all (fun r => r.length = header.length) then
      .ok (header.drop 1, data.map (fun r => (r.headD "", r.drop 1)))
    else .error .raggedTable

/-- Python `str.lstrip('#')` as used on the header row of a block body. -/
def lstripHash (l : String) : String :=
  String.mk (l.toList.dropWhile (fun c => c = '#'))

/-- `FastQCBlock.__init__`: the section name and status come from the first
line split on tabs (`IndexError` when the status field is missing); the body
starts at the third line for `Sequence Duplication Levels` and at the second
line otherwise, with its first line's leading `#` stripped. -/
def mkFQBlock (b : List String) : Except PyErr (String × FQBlock) :=
  match b with
  | [] => .error .indexError
  | header :: rest =>
    match splitOnCharS '\t' header with
    | i :: s :: _ =>
      if i = "Sequence Duplication Levels" then
        match rest with
        | _ :: r₁ :: rs => do
          let t ← fqBlockTable (lstripHash r₁ :: rs)
          .ok (i, ⟨s, t.1, t.2⟩)
        | _ => .error .indexError
      else
        match rest with
        | r₁ :: rs => do
          let t ← fqBlockTable (lstripHash r₁ :: rs)
          .ok (i, ⟨s, t.1, t.2⟩)
        | [] => .error .indexError
    | _ => .error .indexError

/-- State of `FastQC._parser`: the tool version, the block being collected
(`None` outside a block) and the finished blocks keyed by section name. -/
structure FQState where
  version : Option String
  currBlock : Option (List String)
  blocks : List (String × FQBlock)
deriving DecidableEq

/-- One line of `FastQC._parser`: a `##FastQC` line records the version
(its second whitespace token); a `>>END_MODULE` line finalises the current
block, but only when it holds more than its header line — a header-only
block is dropped without being added; any other `>>` line starts a block
from its `>`-stripped, right-stripped remainder; remaining lines append to
the current block (`AttributeError` when there is none). -/
def fqStep (st : FQState) (row : String) : Except PyErr FQState :=
  if row.toList.isEmpty then .ok st
  else if pyStarts "##FastQC" row then
    match (pySplitWsTokens row).get? 1 with
    | some v => .ok { st with version := some v }
    | none => .error .indexError
  else if row.toList = ">>END_MODULE\n".toList then
    match st.currBlock with
    | none => .error .typeError
    | some b =>
      if b.length > 1 then do
        let p ← mkFQBlock b
        .ok { st with blocks := odUpd st.blocks p.1 p.2, currBlock := none }
      else .ok { st with currBlock := none }
  else if pyStarts ">>" row then
    .ok { st with currBlock := some [rstripAll (String.mk (row.toList.dropWhile (fun c => c = '>')))] }
  else
    match st.currBlock with
    | none => .error .attributeError
    | some b => .ok { st with currBlock := some (b ++ [rstripAll row]) }

/-- The line loop of `FastQC._parser`. -/
def fastqcScanFrom (st : FQState) : List String → Except PyErr FQState
  | [] => .ok st
  | l :: rest => do
    let st' ← fqStep st l
    fastqcScanFrom st' rest

/-- `FastQC._parser` over pre-split lines, from the fresh state. -/
def fastqcScan (lines : List String) : Except PyErr FQState :=
  fastqcScanFrom ⟨none, none, []⟩ lines

/-- Block lookup on a `FastQC._parser` result, i.e. `FastQC.__getitem__`
seen as an option: `none` when the parse failed or the section name is
absent from the block dictionary. -/
def fastqcBlock (k : String) : Except PyErr FQState → Option FQBlock
  | .ok st => odLookup st.blocks k
  | .error _ => none

/-! ### `split_ranges` -/

/-- A row index as `split_ranges` sees it: the original string label of a
data-file row, or an integer produced by an earlier conversion.  A
non-string index makes `'-' in i` raise `TypeError`, which the source
catches to pass the row through untouched. -/
inductive PyIdx where
  | pyStr (cs : List Char)
  | pyInt (n : Int)
deriving DecidableEq, Repr

/-- A row of the `split_ranges` input: its index and its cell values. -/
def SRRow : Type := PyIdx × List AVal

instance : DecidableEq SRRow := by
  unfold SRRow
  infer_instance

/-- Python `range(start, end + 1)` over integers. -/
def intRange (lo hi : Int) : List Int :=
  (List.range (hi - lo).toNat).map (fun j : Nat => lo + (j : Int))

/-- The body of the `split_ranges` loop for one row: a string index
containing a dash is split on dashes and its two halves converted with
`int()` (an uncaught `ValueError` when a half is malformed or the unpacking
arity is wrong), and the row is copied for every position of the range; a
dash-free string index becomes the row's integer index via `int()`; a
non-string index raises `TypeError`, caught to keep the row unchanged. -/
def srProcessRow : SRRow → Except PyErr (List SRRow)
  | (.pyInt n, v) => .ok [(.pyInt n, v)]
  | (.pyStr cs, v) =>
    if cs.any (fun c => c = '-') then
      match (splitOnChar '-' cs).mapM pyIntL? with
      | none => .error .valueError
      | some [a, b] => .ok ((intRange a (b + 1)).map (fun j => (.pyInt j, v)))
      | some _ => .error .valueError
    else
      match pyIntL? cs with
      | some n => .ok [(.pyInt n, v)]
      | none => .error .valueError

/-- The full `split_ranges` row loop. -/
def srExpandRows : List SRRow → Except PyErr (List SRRow)
  | [] => .ok []
  | r :: rest =>
    match srProcessRow r with
    | .error e => .error e
    | .ok xs =>
      match srExpandRows rest with
      | .error e => .error e
      | .ok ys => .ok (xs ++ ys)

/-- `split_ranges(df)`: expand every row, then rebuild the frame with
`pd.concat(rows, axis=1).T` — which raises `ValueError` when no row was
produced (the empty-input frame). -/
def split_ranges (rows : List SRRow) : Except PyErr (List SRRow) :=
  match srExpandRows rows with
  | .error e => .error e
  | .ok out => if out.isEmpty then .error .noObjectsToConcat else .ok out

/-! ### Fixtures used by the closed theorems -/

/-- A complete single-end atropos report fragment: a Summary section with the
two metric lines under test, an adapter section with a `Trimmed:` line, and
its length-distribution table (every real atropos report carries at least one
such table; the parser unconditionally concatenates them on return). -/
def atroposFixtureSE : String :=
  "=== Summary ===\n\nTotal reads processed:              1,000\nReads with adapters:                  250 (25.0%)\n\n=== Adapter 1 ===\n\nSequence: ACGT; Type: regular 3p; Length: 4; Trimmed: 250 times.\n\nlength\tcount\texpect\tmax.err\terror counts\n3\t100\t15.6\t0\t100\n"

/-- A bamtools stats report carrying every source key the derived percentage
columns divide by. -/
def bamtoolsFixture : String :=
  "Mapped reads:       80\nForward strand:     60\nReverse strand:     20\nFailed QC:          0\nDuplicates:         0\nPaired-end reads:   0\nTotal reads:        100\n"

/-- A FastQC data file with one populated section followed by a section whose
block holds only its header line when `>>END_MODULE` arrives. -/
def fastqcFixture : List String :=
  ["##FastQC 0.11.5\n", ">>Per base sequence quality\tpass\n", "#Base\tMean\n",
   "1\t32.9\n", ">>END_MODULE\n", ">>Basic Statistics\tfail\n", ">>END_MODULE\n"]

/-! ### Helper lemmas -/

/-- A decimal digit is not regex whitespace. -/
theorem digit_not_space {c : Char} (h : c.isDigit = true) : isPySpace c = false := by
  cases hs : isPySpace c
  · rfl
  · exfalso
    simp only [isPySpace, Bool.or_eq_true, decide_eq_true_eq] at hs
    rcases hs with ((((h1 | h1) | h1) | h1) | h1) | h1 <;> subst h1 <;> exact absurd h (by decide)

/-- A digit differs from any non-digit character. -/
theorem digit_ne {c : Char} (d : Char) (h : c.isDigit = true) (hd : d.isDigit = false) :
    c ≠ d := by
  intro he
  subst he
  rw [h] at hd
  exact Bool.noConfusion hd

/-- Whitespace stripping is the identity on all-digit strings. -/
theorem dropWhile_space_of_all_digit {cs : List Char} (h : cs.all Char.isDigit = true) :
    cs.dropWhile isPySpace = cs := by
  cases cs with
  | nil => rfl
  | cons c rest =>
    simp only [List.all_cons, Bool.and_eq_true] at h
    simp [List.dropWhile_cons, digit_not_space h.1]

/-- Python `int()` on a nonempty all-digit string yields its decimal value. -/
theorem pyIntL?_digits {cs : List Char} (h₁ : cs ≠ []) (h₂ : cs.all Char.isDigit = true) :
    pyIntL? cs = some (digitsToNat cs : Int) := by
  have hrev : cs.reverse.all Char.isDigit = true := by
    rw [List.all_reverse]; exact h₂
  unfold pyIntL?
  simp only []
  rw [dropWhile_space_of_all_digit h₂, dropWhile_space_of_all_digit hrev, List.reverse_reverse]
  cases cs with
  | nil => exact absurd rfl h₁
  | cons c rest =>
    have hall := h₂
    simp only [List.all_cons, Bool.and_eq_true] at h₂
    have hne₁ : c ≠ '-' := digit_ne _ h₂.1 (by decide)
    have hne₂ : c ≠ '+' := digit_ne _ h₂.1 (by decide)
    simp [hne₁, hne₂, hall]

/-- Splitting on an absent separator keeps the string whole. -/
theorem splitOnChar_of_not_mem {sep : Char} {cs : List Char} (h : sep ∉ cs) :
    splitOnChar sep cs = [cs] := by
  induction cs with
  | nil => rfl
  | cons c rest ih =>
    rw [List.mem_cons] at h
    push_neg at h
    have hc : ¬ (c = sep) := fun hh => h.1 hh.symm
    simp [splitOnChar, hc, ih h.2]

/-- Splitting `a ++ sep ++ b` with `sep` absent from both halves yields
exactly the two halves. -/
theorem splitOnChar_sandwich {sep : Char} {a b : List Char} (ha : sep ∉ a) (hb : sep ∉ b) :
    splitOnChar sep (a ++ sep :: b) = [a, b] := by
  induction a with
  | nil => simp [splitOnChar, splitOnChar_of_not_mem hb]
  | cons c a' ih =>
    rw [List.mem_cons] at ha
    push_neg at ha
    have hc : ¬ (c = sep) := fun hh => ha.1 hh.symm
    simp [splitOnChar, hc, ih ha.2]

/-- All-digit strings contain no dash. -/
theorem not_dash_of_all_digit {cs : List Char} (h : cs.all Char.isDigit = true) :
    '-' ∉ cs := by
  intro hm
  have := List.all_eq_true.mp h _ hm
  exact absurd this (by decide)

/-- The dash-membership test is false on dash-free strings. -/
theorem any_dash_false {cs : List Char} (h : '-' ∉ cs) :
    (cs.any fun c => c = '-') = false := by
  rw [List.any_eq_false]
  intro x hx
  simp only [decide_eq_true_eq]
  intro he
  subst he
  exact h hx

/-- `range(a, b + 1)` over cast naturals is the shifted natural range. -/
theorem intRange_natCast (a b : Nat) :
    intRange (a : Int) ((b : Int) + 1) =
      (List.range (b + 1 - a)).map (fun j : Nat => (a : Int) + (j : Int)) := by
  unfold intRange
  have h : ((b : Int) + 1 - (a : Int)).toNat = b + 1 - a := by omega
  rw [h]

/-! ### Claim theorems -/

/-- C1: the claim says every parser in the family returns the `None`
sentinel when no line matches and never raises; the code of
`parse_picardCollect_summary` contradicts this (and its own dead
`return None` branch): when no `PF_BASES` line exists its `parsed` variable
is never assigned, so `len(parsed)` raises `UnboundLocalError`.  This
theorem evaluates the parser at such an input. -/
theorem picard_summary_missing_token_raises :
    parse_picardCollect_summary "sample1" "foo\n" = .error .unboundLocalError := by decide

/-- C2 counterexample: on an input consisting of exactly the two lines
`Mapped reads: 80` and `Total reads: 100` the parse does not succeed — the
derived columns are computed unconditionally, and the lookup of the absent
`Forward strand` column raises `KeyError`. -/
theorem bamtools_two_line_input_raises :
    parse_bamtools_stats "sample1" "Mapped reads: 80\nTotal reads: 100\n" =
      .error (.keyError "Forward strand") := by decide

/-- C2 (amended): when the input additionally carries all six derived-column
source keys, the parse succeeds and the derived `Percent Mapped` column is
`Mapped reads / Total reads * 100 = 80.0`. -/
theorem bamtools_percent_mapped_with_all_source_keys :
    bamtoolsCol "Percent Mapped" (parse_bamtools_stats "sample1" bamtoolsFixture) =
      some (.float 80) := by
  have h : bamtoolsCol "Percent Mapped" (parse_bamtools_stats "sample1" bamtoolsFixture) =
      some (pctOf 80 100) := by rfl
  rw [h]
  norm_num [pctOf]

/-- C3 counterexample: a uniform table whose data rows have 15 tab-separated
fields leaves only 14 columns after `read_csv(..., index_col=0)` consumes the
first field, so assigning the 15 canonical names raises a pandas length
mismatch (`ValueError`), not the record the claim describes. -/
theorem dupradar_15_column_input_length_mismatch :
    parse_dupradarRows "sample1"
      [["h1", "h2", "h3", "h4", "h5", "h6", "h7", "h8", "h9", "h10", "h11", "h12", "h13",
        "h14", "h15"],
       ["1", "2", "3", "4", "5", "6", "7", "8", "9", "10", "11", "12", "13", "14", "15"]] =
      .error .lengthMismatch := by decide

/-- C3 (amended): rows need 16 fields — the first is consumed as the read
index; the 15 canonical names are then assigned in order, and
`set_index(['sample', 'FBgn'])` moves `FBgn` (the file's second field) into
the composite row index, leaving the remaining 14 canonical names, in order,
as the output columns. -/
theorem dupradar_16_column_canonical_columns (s : String) (header row : List String)
    (h₁ : header.length = 16) (h₂ : row.length = 16) :
    parse_dupradarRows s [header, row] =
      .ok ⟨["geneLength", "allCountsMulti", "filteredCountsMulti", "dupRateMulti",
            "dupsPerIdMulti", "RPKMulti", "RPKMMulti", "allCounts", "filteredCounts",
            "dupRate", "dupsPerId", "RPK", "RPKM", "mhRate"],
           [((s, (row.drop 1).headD ""), row.drop 2)]⟩ := by
  rcases row with _ | ⟨x, row'⟩
  · simp at h₂
  rcases row' with _ | ⟨y, r⟩
  · simp at h₂
  have hc : (x :: y :: r).length = header.length := by
    rw [h₁, h₂]
  have hidx : dupradarCanonical.findIdx? (fun c => c = "FBgn") = some 0 := by decide
  simp [parse_dupradarRows, hc, h₁, hidx, dupradarCanonical]

/-- C3 witness: the amended theorem evaluated on a concrete 16-field table. -/
theorem dupradar_16_column_canonical_columns_witness :
    parse_dupradarRows "sample1"
      [["idx", "h1", "h2", "h3", "h4", "h5", "h6", "h7", "h8", "h9", "h10", "h11", "h12",
        "h13", "h14", "h15"],
       ["1", "FBgn0001", "100", "2", "3", "4", "5", "6", "7", "8", "9", "10", "11", "12",
        "13", "14"]] =
      .ok ⟨["geneLength", "allCountsMulti", "filteredCountsMulti", "dupRateMulti",
            "dupsPerIdMulti", "RPKMulti", "RPKMMulti", "allCounts", "filteredCounts",
            "dupRate", "dupsPerId", "RPK", "RPKM", "mhRate"],
           [(("sample1", "FBgn0001"),
             ["100", "2", "3", "4", "5", "6", "7", "8", "9", "10", "11", "12", "13",
              "14"])]⟩ :=
  dupradar_16_column_canonical_columns "sample1" _ _ (by decide) (by decide)

/-- C4: on a single-end report whose Summary holds
`Total reads processed: 1,000` and `Reads with adapters: 250 (25.0%)`, the
commas are stripped before matching, both values are parsed as the integers
1000 and 250, and the derived `pct_read1_adapters` column is
`250 / 1000 * 100 = 25.0`. -/
theorem atropos_summary_values :
    atroposCol "Total reads processed" (parse_atropos "sample1" atroposFixtureSE) =
        some (.int 1000) ∧
      atroposCol "Reads with adapters" (parse_atropos "sample1" atroposFixtureSE) =
        some (.int 250) ∧
      atroposCol "pct_read1_adapters" (parse_atropos "sample1" atroposFixtureSE) =
        some (.float 25) := by
  refine ⟨by decide, by decide, ?_⟩
  have h : atroposCol "pct_read1_adapters" (parse_atropos "sample1" atroposFixtureSE) =
      some (pctOf 250 1000) := by rfl
  rw [h]
  norm_num [pctOf]

/-- C5: a row whose string index is `a-b` (decimal digit strings with value
`a ≤ b`) expands to the `b - a + 1` rows with integer indices `a..b`, each
holding the original row's values, and a row whose index is a plain digit
string appears once with its index parsed as an integer and its values
unchanged. -/
theorem split_ranges_range_expansion (s t u : List Char) (v w : List AVal)
    (hs₁ : s ≠ []) (hs₂ : s.all Char.isDigit = true)
    (ht₁ : t ≠ []) (ht₂ : t.all Char.isDigit = true)
    (hu₁ : u ≠ []) (hu₂ : u.all Char.isDigit = true)
    (hle : digitsToNat s ≤ digitsToNat t) :
    split_ranges [(.pyStr (s ++ '-' :: t), v), (.pyStr u, w)] =
      .ok (((List.range (digitsToNat t + 1 - digitsToNat s)).map
              (fun j : Nat => (PyIdx.pyInt ((digitsToNat s : Int) + (j : Int)), v))) ++
           [(PyIdx.pyInt (digitsToNat u : Int), w)]) := by
  have hdash : ((s ++ '-' :: t).any fun c => c = '-') = true := by
    simp [List.any_append]
  have h1 : srProcessRow (.pyStr (s ++ '-' :: t), v) =
      .ok ((List.range (digitsToNat t + 1 - digitsToNat s)).map
            (fun j : Nat => (PyIdx.pyInt ((digitsToNat s : Int) + (j : Int)), v))) := by
    simp only [srProcessRow, hdash, if_true]
    rw [splitOnChar_sandwich (not_dash_of_all_digit hs₂) (not_dash_of_all_digit ht₂)]
    simp only [List.mapM_cons, List.mapM_nil, pyIntL?_digits hs₁ hs₂, pyIntL?_digits ht₁ ht₂,
      Option.pure_def, Option.bind_eq_bind, Option.some_bind]
    rw [intRange_natCast]
    rw [List.map_map]
    rfl
  have h2 : srProcessRow (.pyStr u, w) = .ok [(PyIdx.pyInt (digitsToNat u : Int), w)] := by
    simp only [srProcessRow, any_dash_false (not_dash_of_all_digit hu₂), Bool.false_eq_true,
      if_false]
    simp [pyIntL?_digits hu₁ hu₂]
  simp only [split_ranges, srExpandRows, h1, h2]
  simp [List.isEmpty_eq_false]

/-- C5 witness: the expansion theorem at the FastQC-style row `10-19` with a
companion single-position row `7`. -/
theorem split_ranges_range_expansion_witness :
    split_ranges [(.pyStr "10-19".toList, [AVal.int 3]), (.pyStr "7".toList, [AVal.int 4])] =
      .ok [(.pyInt 10, [.int 3]), (.pyInt 11, [.int 3]), (.pyInt 12, [.int 3]),
           (.pyInt 13, [.int 3]), (.pyInt 14, [.int 3]), (.pyInt 15, [.int 3]),
           (.pyInt 16, [.int 3]), (.pyInt 17, [.int 3]), (.pyInt 18, [.int 3]),
           (.pyInt 19, [.int 3]), (.pyInt 7, [.int 4])] := by
  have h := split_ranges_range_expansion "10".toList "19".toList "7".toList [AVal.int 3]
    [AVal.int 4] (by decide) (by decide) (by decide) (by decide) (by decide) (by decide)
    (by decide)
  exact h.trans (by decide)

/-- C6 counterexample: an input whose Summary section yields zero keys but
whose adapter section has a `Trimmed:` line leaves the accumulator
non-empty, so the parser does not return the empty result — it proceeds to
the single-end derived column and raises `KeyError` on the absent
`Reads with adapters` key. -/
theorem atropos_summaryless_trimmed_key_raises :
    parse_atropos "sample1"
      "=== Summary ===\n=== Adapter 1 ===\nSequence: ACGT; Type: regular 3p; Length: 4; Trimmed: 5 times.\n" =
      .error (.keyError "Reads with adapters") := by decide

/-- C6 (amended): the emptiness test is on the whole accumulated mapping
(Summary keys and per-section trimmed counts together): whenever the scan
completes with an empty accumulator, the parser returns the `None` sentinel
without raising. -/
theorem atropos_empty_accumulator_returns_none (s : String) (lines : List String)
    (st : AState) (h₁ : scanAtropos s lines = .ok st) (h₂ : st.parsed = []) :
    parse_atroposLines s lines = .ok none := by
  simp [parse_atroposLines, h₁, atroposFinish, h₂]

/-- C6 witness: a file with no matching content scans to an empty
accumulator and yields the `None` sentinel. -/
theorem atropos_empty_accumulator_returns_none_witness :
    parse_atroposLines "sample1" ["hello\n"] = .ok none :=
  atropos_empty_accumulator_returns_none "sample1" ["hello\n"] ⟨none, none, [], []⟩
    (by decide) rfl

/-- C7 counterexample: a line can match the fixed 12-field pattern while a
percent field such as `1.2.3` (legal for the `[\d\.]+` group) makes Python
`float()` raise `ValueError`, so the matching line contributes an exception
instead of 11 columns. -/
theorem fqscreen_matching_line_bad_float_raises :
    (fqscreenFields? "org 1 2 3.4 5 6.7 8 9.0 10 10.1 12 1.2.3\n").isSome = true ∧
      parse_fqscreenLines "sample1" ["org 1 2 3.4 5 6.7 8 9.0 10 10.1 12 1.2.3\n"] =
        .error .valueError :=
  ⟨by decide, by decide⟩

/-- C7 (amended): every line matching the fixed 12-field pattern whose five
percent fields are valid float literals contributes exactly 11
composite-named columns for its organism — `(organism, reads_processed,
count)` plus a count/percent pair per hit category — with counts as integers
and percents as floats. -/
theorem fqscreen_matching_line_eleven_columns (s l : String)
    (f₁ f₂ f₃ f₄ f₅ f₆ f₇ f₈ f₉ f₁₀ f₁₁ f₁₂ : String) (q₁ q₂ q₃ q₄ q₅ : ℚ)
    (hm : fqscreenFields? l = some [f₁, f₂, f₃, f₄, f₅, f₆, f₇, f₈, f₉, f₁₀, f₁₁, f₁₂])
    (h₄ : floatOfField f₄ = .ok q₁)
    (h₆ : floatOfField f₆ = .ok q₂)
    (h₈ : floatOfField f₈ = .ok q₃)
    (h₁₀ : floatOfField f₁₀ = .ok q₄)
    (h₁₂ : floatOfField f₁₂ = .ok q₅) :
    parse_fqscreenLines s [l] =
      .ok (some ⟨s,
        [((f₁, "reads_processed", "count"), .int (intOfDigits f₂)),
         ((f₁, "unmapped", "count"), .int (intOfDigits f₃)),
         ((f₁, "unmapped", "percent"), .float q₁),
         ((f₁, "one_hit_one_library", "count"), .int (intOfDigits f₅)),
         ((f₁, "one_hit_one_library", "percent"), .float q₂),
         ((f₁, "multiple_hits_one_library", "count"), .int (intOfDigits f₇)),
         ((f₁, "multiple_hits_one_library", "percent"), .float q₃),
         ((f₁, "one_hit_multiple_libraries", "count"), .int (intOfDigits f₉)),
         ((f₁, "one_hit_multiple_libraries", "percent"), .float q₄),
         ((f₁, "multiple_hits_multiple_libraries", "count"), .int (intOfDigits f₁₁)),
         ((f₁, "multiple_hits_multiple_libraries", "percent"), .float q₅)]⟩) := by
  simp [parse_fqscreenLines, fqscreenScan, fqscreenLine, hm,
    h₄, h₆, h₈, h₁₀, h₁₂, odUpd]

/-- C7 witness: the amended theorem at one fully populated organism line. -/
theorem fqscreen_matching_line_eleven_columns_witness :
    parse_fqscreenLines "sample1" ["Human 100 10 10 60 60 15 15 10 10 5 5\n"] =
      .ok (some ⟨"sample1",
        [(("Human", "reads_processed", "count"), .int 100),
         (("Human", "unmapped", "count"), .int 10),
         (("Human", "unmapped", "percent"), .float 10),
         (("Human", "one_hit_one_library", "count"), .int 60),
         (("Human", "one_hit_one_library", "percent"), .float 60),
         (("Human", "multiple_hits_one_library", "count"), .int 15),
         (("Human", "multiple_hits_one_library", "percent"), .float 15),
         (("Human", "one_hit_multiple_libraries", "count"), .int 10),
         (("Human", "one_hit_multiple_libraries", "percent"), .float 10),
         (("Human", "multiple_hits_multiple_libraries", "count"), .int 5),
         (("Human", "multiple_hits_multiple_libraries", "percent"), .float 5)]⟩) := by
  have h := fqscreen_matching_line_eleven_columns "sample1"
    "Human 100 10 10 60 60 15 15 10 10 5 5\n"
    "Human" "100" "10" "10" "60" "60" "15" "15" "10" "10" "5" "5"
    10 60 15 10 5 (by decide) (by rfl) (by rfl) (by rfl) (by rfl) (by rfl)
  exact h.trans (by decide)

/-- C8: each parser is a pure function of its sample identifier and the
bytes of its input file — the embedding takes nothing else, so two
invocations on equal contents return identical results (same columns, same
index, same values). -/
theorem parsers_deterministic_same_bytes (s c₁ c₂ : String) (h : c₁ = c₂) :
    parse_samtools_stats s c₁ = parse_samtools_stats s c₂ := by
  rw [h]

/-- C8 witness: determinism at a concrete samtools stats report. -/
theorem parsers_deterministic_same_bytes_witness :
    parse_samtools_stats "sample1" "SN\traw total sequences:\t100\n" =
      parse_samtools_stats "sample1" "SN\traw total sequences:\t100\n" :=
  parsers_deterministic_same_bytes "sample1" _ _ rfl

/-- C9 (implicit): a section whose block holds only its header line when
`>>END_MODULE` arrives is silently dropped: it is absent from the parsed
blocks even though its `>>` header line is present in the input, while a
populated section from the same file is retained. -/
theorem fastqc_header_only_section_omitted :
    fastqcBlock "Basic Statistics" (fastqcScan fastqcFixture) = none ∧
      (fastqcBlock "Per base sequence quality" (fastqcScan fastqcFixture)).isSome = true ∧
      ">>Basic Statistics\tfail\n" ∈ fastqcFixture :=
  ⟨by decide, by decide, by decide⟩

/-- C10 (implicit): a row whose index is not a string (here an integer)
makes the dash test raise `TypeError`, which is caught: the row passes
through unchanged — same index, no integer conversion, no expansion —
whatever the rest of the frame holds. -/
theorem split_ranges_nonstring_index_passthrough (n : Int) (v : List AVal)
    (rest : List SRRow) :
    split_ranges ((.pyInt n, v) :: rest) =
      (srExpandRows rest).map (fun rs => (.pyInt n, v) :: rs) := by
  cases h : srExpandRows rest with
  | error e => simp [split_ranges, srExpandRows, srProcessRow, h, Except.map]
  | ok rs => simp [split_ranges, srExpandRows, srProcessRow, h, Except.map]

end Lcdblib
